import Mathlib

/-!
Verification of the `agent-os` packaging manifest (`setup.py`).

The repository consists of a single setuptools manifest.  We embed it at two
levels:

* a small Python abstract-syntax model (`PyExpr`, `PyStmt`) into which the
  script is translated verbatim, used for structural claims (straight-line
  shape, literal arguments, absence of branching and error handling);
* a build-semantics model (`runSetupScript`, `scriptTrace`) over an explicit
  build environment, used for behavioural claims (README read failures,
  determinism, the single `setup` invocation);
* a fragment of the external packaging schema (PEP 508 distribution names,
  PEP 440 versions and specifier sets) used for syntactic-validity claims.
-/

/-- Python expressions, restricted to the forms occurring in `setup.py`:
string literals, list displays, bare names, calls with positional and
keyword arguments, and attribute access. -/
inductive PyExpr where
  | strLit (s : String)
  | listLit (elems : List PyExpr)
  | nameRef (n : String)
  | call (fn : PyExpr) (args : List PyExpr) (kwargs : List (String × PyExpr))
  | attrAccess (obj : PyExpr) (field : String)

/-- Python statements.  Besides the two forms the script uses (`from … import …`
and an expression statement), the model keeps the control-flow constructs the
spec asserts are absent, so their absence is a real check. -/
inductive PyStmt where
  | importFrom (module : String) (names : List String)
  | exprStmt (e : PyExpr)
  | assign (target : String) (e : PyExpr)
  | augAssign (target : String) (e : PyExpr)
  | ifStmt (cond : PyExpr) (thenBody elseBody : List PyStmt)
  | whileStmt (cond : PyExpr) (body : List PyStmt)
  | forStmt (var : String) (iter : PyExpr) (body : List PyStmt)
  | tryStmt (body handlers : List PyStmt)
  | withStmt (ctx : PyExpr) (body : List PyStmt)
  | funcDef (nm : String) (body : List PyStmt)
  | asyncFuncDef (nm : String) (body : List PyStmt)

mutual

/-- An expression is a literal if it is a string literal or a list display of
literals.  Names, calls and attribute accesses are not literals. -/
def isLiteral : PyExpr → Bool
  | .strLit _ => true
  | .listLit elems => allLiterals elems
  | .nameRef _ => false
  | .call _ _ _ => false
  | .attrAccess _ _ => false

def allLiterals : List PyExpr → Bool
  | [] => true
  | e :: es => isLiteral e && allLiterals es

end

/-- `import` statements (top-of-file glue, not the script's action). -/
def isImportStmt : PyStmt → Bool
  | .importFrom _ _ => true
  | _ => false

def isBranchCtor : PyStmt → Bool
  | .ifStmt _ _ _ => true
  | _ => false

def isLoopCtor : PyStmt → Bool
  | .whileStmt _ _ => true
  | .forStmt _ _ _ => true
  | _ => false

def isTryCtor : PyStmt → Bool
  | .tryStmt _ _ => true
  | _ => false

def isAssignCtor : PyStmt → Bool
  | .assign _ _ => true
  | .augAssign _ _ => true
  | _ => false

def isAsyncCtor : PyStmt → Bool
  | .asyncFuncDef _ _ => true
  | _ => false

def isFuncDefCtor : PyStmt → Bool
  | .funcDef _ _ => true
  | .asyncFuncDef _ _ => true
  | _ => false

mutual

/-- Does `p` hold of `s` or of any statement nested inside it? -/
def stmtDeepAny (p : PyStmt → Bool) (s : PyStmt) : Bool :=
  p s ||
    match s with
    | .ifStmt _ t e => listDeepAny p t || listDeepAny p e
    | .whileStmt _ b => listDeepAny p b
    | .forStmt _ _ b => listDeepAny p b
    | .tryStmt b h => listDeepAny p b || listDeepAny p h
    | .withStmt _ b => listDeepAny p b
    | .funcDef _ b => listDeepAny p b
    | .asyncFuncDef _ b => listDeepAny p b
    | _ => false

def listDeepAny (p : PyStmt → Bool) : List PyStmt → Bool
  | [] => false
  | s :: rest => stmtDeepAny p s || listDeepAny p rest

end

/-- `open("README.md").read()` — the `long_description` argument. -/
def openReadExpr : PyExpr :=
  .call (.attrAccess (.call (.nameRef "open") [.strLit "README.md"] []) "read") [] []

/-- `find_packages()` — the `packages` argument. -/
def findPackagesExpr : PyExpr :=
  .call (.nameRef "find_packages") [] []

/-- The keyword arguments of the `setup(...)` call, in source order
(`setup.py` lines 4–15). -/
def setupCallKwargs : List (String × PyExpr) :=
  [ ("name", .strLit "agent-os"),
    ("version", .strLit "0.1.0"),
    ("author", .strLit "Your Name"),
    ("description", .strLit "Canonical naming and discovery system for AI agents"),
    ("long_description", openReadExpr),
    ("long_description_content_type", .strLit "text/markdown"),
    ("url", .strLit "https://github.com/yourusername/agent-os"),
    ("packages", findPackagesExpr),
    ("python_requires", .strLit ">=3.8"),
    ("install_requires", .listLit [.strLit "pyyaml>=6.0"]) ]

/-- The `setup(...)` call expression (`setup.py` lines 3–16). -/
def setupCallExpr : PyExpr :=
  .call (.nameRef "setup") [] setupCallKwargs

/-- The whole of `setup.py`: one import, one expression statement. -/
def setupPyStmts : List PyStmt :=
  [ .importFrom "setuptools" ["setup", "find_packages"],
    .exprStmt setupCallExpr ]

/-- The statements of the script other than import glue. -/
def executableStmts : List PyStmt :=
  setupPyStmts.filter (fun s => !isImportStmt s)

/-- Keys of the `setup` keyword arguments whose values are literals. -/
def literalKwargKeys : List String :=
  (setupCallKwargs.filter (fun kv => isLiteral kv.2)).map Prod.fst

/-- Keys of the `setup` keyword arguments whose values are computed. -/
def nonLiteralKwargKeys : List String :=
  (setupCallKwargs.filter (fun kv => !isLiteral kv.2)).map Prod.fst

/-!
## Build semantics

Running `python setup.py …` evaluates the keyword arguments left to right and
then calls `setup`.  The only inputs the script touches are the contents of
`README.md` and the package layout seen by `find_packages()`; the environment
model also carries environment variables, a clock and a random seed precisely
so that it is a theorem, not a modelling artefact, that the script ignores
them.
-/

/-- The state of the world a build runs in.  `readme` is `some c` when a file
named `README.md` is present and readable with contents `c`, and `none` when
`open("README.md")` (or the subsequent `read()`) would raise. -/
structure BuildEnv where
  readme : Option String
  packageDirs : List String
  envVars : List (String × String)
  clock : Nat
  randomSeed : Nat

/-- The full argument set the script passes to `setup`. -/
structure SetupArgs where
  name : String
  version : String
  author : String
  description : String
  long_description : String
  long_description_content_type : String
  url : String
  packages : List String
  python_requires : String
  install_requires : List String
deriving DecidableEq, Repr

/-- The one failure the script itself can produce: the README read raising. -/
inductive BuildError where
  | readFailure
deriving DecidableEq, Repr

/-- `open("README.md").read()`: returns the contents, or raises when the file
is missing or unreadable. -/
def openRead (env : BuildEnv) : Except BuildError String :=
  match env.readme with
  | some c => .ok c
  | none => .error .readFailure

/-- The argument record built from the evaluated keyword arguments
(`setup.py` lines 4–15): every field other than `long_description` and
`packages` is a literal from the source. -/
def mkSetupArgs (longDesc : String) (pkgs : List String) : SetupArgs :=
  { name := "agent-os",
    version := "0.1.0",
    author := "Your Name",
    description := "Canonical naming and discovery system for AI agents",
    long_description := longDesc,
    long_description_content_type := "text/markdown",
    url := "https://github.com/yourusername/agent-os",
    packages := pkgs,
    python_requires := ">=3.8",
    install_requires := ["pyyaml>=6.0"] }

/-- Running the script: evaluate `open("README.md").read()` (raising aborts
the run before `setup` is reached), evaluate `find_packages()`, call `setup`.
The result is the argument set `setup` received, or the propagated error. -/
def runSetupScript (env : BuildEnv) : Except BuildError SetupArgs :=
  match openRead env with
  | .error e => .error e
  | .ok longDesc => .ok (mkSetupArgs longDesc env.packageDirs)

/-- Observable events of a run.  `threadSpawn` and `asyncTask` are in the
vocabulary only so that their absence from every trace is a statement. -/
inductive BuildEvent where
  | openCall (path : String)
  | readCall
  | findPackagesCall
  | setupCall (args : SetupArgs)
  | threadSpawn
  | asyncTask
deriving DecidableEq, Repr

def isSetupEvent : BuildEvent → Bool
  | .setupCall _ => true
  | _ => false

def isConcurrencyEvent : BuildEvent → Bool
  | .threadSpawn => true
  | .asyncTask => true
  | _ => false

/-- The sequential trace of a run.  Keyword arguments are evaluated in source
order, so the README open/read happens first, then `find_packages()`, and
`setup` is invoked last; a raising read ends the run at once. -/
def scriptTrace (env : BuildEnv) : List BuildEvent :=
  match env.readme with
  | none => [.openCall "README.md"]
  | some c =>
      [.openCall "README.md", .readCall, .findPackagesCall,
       .setupCall (mkSetupArgs c env.packageDirs)]

/-!
## Packaging schema fragment

The packaging tool is external to the repository; the schema it applies to
the declared strings is the standard one (PEP 508 distribution names and
requirement strings, PEP 440 release versions and specifier sets).  The
checkers below embed the fragment of that schema the declared strings
exercise: they accept a subset of the full grammar, so acceptance of a
concrete string is sound evidence of validity.
-/

/-- Release versions compare as zero-padded numeric tuples (PEP 440). -/
def padZeros (n : Nat) (v : List Nat) : List Nat :=
  v ++ List.replicate (n - v.length) 0

def lexLt : List Nat → List Nat → Bool
  | _, [] => false
  | [], _ :: _ => true
  | a :: as, b :: bs => decide (a < b) || (a == b && lexLt as bs)

def verLt (a b : List Nat) : Bool :=
  lexLt (padZeros b.length a) (padZeros a.length b)

def verEq (a b : List Nat) : Bool :=
  padZeros b.length a == padZeros a.length b

def verLe (a b : List Nat) : Bool :=
  verLt a b || verEq a b

/-- Comparison operators of a PEP 440 version specifier clause. -/
inductive CmpOp where
  | eqOp
  | neOp
  | leOp
  | geOp
  | ltOp
  | gtOp
  | compatibleOp
  | arbitraryEqOp
deriving DecidableEq, Repr

/-- `geOp` and `gtOp` constrain a version from below only. -/
def isLowerBoundOp : CmpOp → Bool
  | .geOp => true
  | .gtOp => true
  | _ => false

def splitOnAux (sep : Char) : List Char → List Char → List (List Char)
  | [], acc => [acc.reverse]
  | c :: cs, acc =>
      if c = sep then acc.reverse :: splitOnAux sep cs []
      else splitOnAux sep cs (c :: acc)

def splitOn (sep : Char) (cs : List Char) : List (List Char) :=
  splitOnAux sep cs []

def isDigitSegment (cs : List Char) : Bool :=
  !cs.isEmpty && cs.all Char.isDigit

def natOfDigits (cs : List Char) : Nat :=
  cs.foldl (fun a c => a * 10 + (c.toNat - 48)) 0

/-- A PEP 440 release version: dot-separated runs of digits. -/
def parseReleaseVersion (cs : List Char) : Option (List Nat) :=
  let segs := splitOn '.' cs
  if segs.all isDigitSegment then some (segs.map natOfDigits) else none

/-- One specifier clause: an operator followed by a release version. -/
def parseClause (cs : List Char) : Option (CmpOp × List Nat) :=
  match cs with
  | '=' :: '=' :: '=' :: rest => (parseReleaseVersion rest).map (fun v => (.arbitraryEqOp, v))
  | '=' :: '=' :: rest => (parseReleaseVersion rest).map (fun v => (.eqOp, v))
  | '!' :: '=' :: rest => (parseReleaseVersion rest).map (fun v => (.neOp, v))
  | '<' :: '=' :: rest => (parseReleaseVersion rest).map (fun v => (.leOp, v))
  | '>' :: '=' :: rest => (parseReleaseVersion rest).map (fun v => (.geOp, v))
  | '~' :: '=' :: rest => (parseReleaseVersion rest).map (fun v => (.compatibleOp, v))
  | '<' :: rest => (parseReleaseVersion rest).map (fun v => (.ltOp, v))
  | '>' :: rest => (parseReleaseVersion rest).map (fun v => (.gtOp, v))
  | _ => none

def parseClauses : List (List Char) → Option (List (CmpOp × List Nat))
  | [] => some []
  | c :: cs =>
      match parseClause c, parseClauses cs with
      | some a, some as => some (a :: as)
      | _, _ => none

/-- A specifier set: comma-separated clauses (PEP 440). -/
def parseSpecifierSet (s : String) : Option (List (CmpOp × List Nat)) :=
  parseClauses (splitOn ',' s.toList)

/-- The upper end of a compatible-release clause `~= v`: `v` with its final
segment dropped and the new final segment incremented. -/
def compatUpper (w : List Nat) : List Nat :=
  let p := w.dropLast
  p.dropLast ++ [p.getLastD 0 + 1]

/-- Does version `v` satisfy one specifier clause? -/
def satisfiesClause (v : List Nat) : CmpOp × List Nat → Bool
  | (.eqOp, w) => verEq v w
  | (.neOp, w) => !verEq v w
  | (.leOp, w) => verLe v w
  | (.geOp, w) => verLe w v
  | (.ltOp, w) => verLt v w
  | (.gtOp, w) => verLt w v
  | (.compatibleOp, w) => verLe w v && verLt v (compatUpper w)
  | (.arbitraryEqOp, w) => verEq v w

/-- Does version `v` satisfy every clause of a specifier set? -/
def satisfiesSet (clauses : List (CmpOp × List Nat)) (v : List Nat) : Bool :=
  clauses.all (satisfiesClause v)

/-- ASCII letters and digits, the chars a PEP 508 name may start and end on. -/
def isNameChar (c : Char) : Bool :=
  c.isAlphanum

/-- Chars allowed inside a PEP 508 name. -/
def isNameInnerChar (c : Char) : Bool :=
  c.isAlphanum || c = '.' || c = '_' || c = '-'

/-- A valid PEP 508 distribution name: nonempty, alphanumeric first and last
characters, and only alphanumerics, dots, underscores and hyphens inside. -/
def validDistName (s : String) : Bool :=
  let cs := s.toList
  !cs.isEmpty && isNameChar (cs.headD 'a') && isNameChar (cs.getLastD 'a')
    && cs.all isNameInnerChar

/-- A valid (release-form) PEP 440 version string. -/
def validVersion (s : String) : Bool :=
  (parseReleaseVersion s.toList).isSome

/-- A valid PEP 508 requirement of the form `name` or `name` followed by a
version specifier set, as in `install_requires` entries. -/
def validRequirement (s : String) : Bool :=
  let cs := s.toList
  let nameChars := cs.takeWhile isNameInnerChar
  let rest := cs.dropWhile isNameInnerChar
  validDistName (String.mk nameChars)
    && (rest.isEmpty || (parseClauses (splitOn ',' rest)).isSome)

/-!
## Sample build environments and helper lemmas
-/

/-- A build directory with no `README.md`. -/
def envNoReadme : BuildEnv :=
  { readme := none, packageDirs := [], envVars := [], clock := 0, randomSeed := 0 }

/-- A build directory with a readable `README.md`. -/
def envWithReadme : BuildEnv :=
  { readme := some "# agent-os", packageDirs := ["agent_os"],
    envVars := [("HOME", "/home/a")], clock := 17, randomSeed := 5 }

/-- Like `envWithReadme` in README contents and package layout, but in a
different ambient environment (variables, clock, randomness). -/
def envWithReadmeAlt : BuildEnv :=
  { readme := some "# agent-os", packageDirs := ["agent_os"],
    envVars := [("HOME", "/home/b"), ("TZ", "UTC")], clock := 90210,
    randomSeed := 424242 }

lemma verLt_headBump (v : List Nat) : verLt v [v.headD 0 + 4] = true := by
  cases v with
  | nil => decide
  | cons h t => simp [verLt, padZeros, lexLt, List.headD]

lemma satisfiesSet_ge38_headBump (v : List Nat) :
    satisfiesSet [(CmpOp.geOp, [3, 8])] [v.headD 0 + 4] = true := by
  simp [satisfiesSet, satisfiesClause, verLe, verLt, padZeros, lexLt]

/-- The parsed form of the declared `python_requires` constraint. -/
def pyRequiresClauses : List (CmpOp × List Nat) :=
  [(.geOp, [3, 8])]

/-- The metadata fields the specification enumerates as the repository's only
data: name, version, author, description, URL, minimum interpreter version,
and the single dependency specifier. -/
def claimedMetadataKeys : List String :=
  ["name", "version", "author", "description", "url", "python_requires",
   "install_requires"]

/-!
## Claims
-/

/-- Claim C1: the build succeeds only if `README.md` is present and readable.
When the README open/read fails, the run fails with that read error; a
successful run implies `README.md` was present and readable. -/
theorem build_requires_readable_readme (env : BuildEnv) :
    (openRead env = .error .readFailure → runSetupScript env = .error .readFailure)
    ∧ (env.readme = none → runSetupScript env = .error .readFailure)
    ∧ (∀ args, runSetupScript env = .ok args → ∃ c, env.readme = some c) := by
  cases hr : env.readme with
  | none =>
      exact ⟨fun _ => by simp [runSetupScript, openRead, hr],
             fun _ => by simp [runSetupScript, openRead, hr],
             fun args h => by simp [runSetupScript, openRead, hr] at h⟩
  | some c =>
      refine ⟨fun h => ?_, fun h => ?_, fun args _ => ⟨c, rfl⟩⟩
      · simp [openRead, hr] at h
      · exact Option.noConfusion h

theorem build_requires_readable_readme_witness :
    runSetupScript envNoReadme = .error .readFailure
    ∧ ∃ c, envWithReadme.readme = some c :=
  ⟨(build_requires_readable_readme envNoReadme).2.1 rfl,
   (build_requires_readable_readme envWithReadme).2.2
     (mkSetupArgs "# agent-os" ["agent_os"]) rfl⟩

/-- Claim C2: every successful run passes `setup` exactly one dependency,
namely the YAML library constrained to minimum version 6.0. -/
theorem install_requires_exactly_pyyaml (env : BuildEnv) (args : SetupArgs)
    (h : runSetupScript env = .ok args) :
    args.install_requires = ["pyyaml>=6.0"] ∧ args.install_requires.length = 1 := by
  cases hr : env.readme with
  | none => simp [runSetupScript, openRead, hr] at h
  | some c =>
      simp [runSetupScript, openRead, hr] at h
      subst h
      exact ⟨rfl, rfl⟩

theorem install_requires_exactly_pyyaml_witness :
    (mkSetupArgs "# agent-os" ["agent_os"]).install_requires = ["pyyaml>=6.0"]
    ∧ (mkSetupArgs "# agent-os" ["agent_os"]).install_requires.length = 1 :=
  install_requires_exactly_pyyaml envWithReadme
    (mkSetupArgs "# agent-os" ["agent_os"]) rfl

/-- Claim C3: the declared interpreter constraint `">=3.8"` parses to the
single lower-bound clause `>= 3.8`; every version at or above 3.8 satisfies
it, and it imposes no upper bound: above any version there is a strictly
larger one that still satisfies it. -/
theorem python_requires_lower_bound_only :
    List.lookup "python_requires" setupCallKwargs = some (.strLit ">=3.8")
    ∧ parseSpecifierSet ">=3.8" = some pyRequiresClauses
    ∧ pyRequiresClauses.all (fun cl => isLowerBoundOp cl.1) = true
    ∧ (∀ v, verLe [3, 8] v = true → satisfiesSet pyRequiresClauses v = true)
    ∧ (∀ v, ∃ w, verLt v w = true ∧ satisfiesSet pyRequiresClauses w = true) := by
  refine ⟨rfl, rfl, rfl, ?_, ?_⟩
  · intro v h
    simp [pyRequiresClauses, satisfiesSet, satisfiesClause, h]
  · intro v
    exact ⟨[v.headD 0 + 4], verLt_headBump v, satisfiesSet_ge38_headBump v⟩

theorem python_requires_lower_bound_only_witness :
    verLe [3, 8] [3, 12] = true ∧ satisfiesSet pyRequiresClauses [3, 12] = true :=
  ⟨by decide, python_requires_lower_bound_only.2.2.2.1 [3, 12] (by decide)⟩

/-- Claim C4 (counterexample): not every argument of the `setup` call is a
literal — the `long_description` argument is the call
`open("README.md").read()`, which is not a literal. -/
theorem setup_call_has_non_literal_argument :
    List.lookup "long_description" setupCallKwargs = some openReadExpr
    ∧ isLiteral openReadExpr = false
    ∧ (setupCallKwargs.all fun kv => isLiteral kv.2) = false :=
  ⟨rfl, rfl, rfl⟩

/-- Claim C4 (amended): the script's sole executable statement is a single
call to `setup` with keyword arguments, with no branching, loops, error
handling or mutable state anywhere in the script; its arguments are literal
except `long_description` (a read of `README.md`) and `packages` (a
`find_packages()` call). -/
theorem single_straight_line_setup_call :
    executableStmts = [PyStmt.exprStmt setupCallExpr]
    ∧ setupCallExpr = PyExpr.call (.nameRef "setup") [] setupCallKwargs
    ∧ listDeepAny isBranchCtor setupPyStmts = false
    ∧ listDeepAny isLoopCtor setupPyStmts = false
    ∧ listDeepAny isTryCtor setupPyStmts = false
    ∧ listDeepAny isAssignCtor setupPyStmts = false
    ∧ nonLiteralKwargKeys = ["long_description", "packages"] :=
  ⟨rfl, rfl, rfl, rfl, rfl, rfl, rfl⟩

/-- Claim C5 (counterexample): the setup call carries a literal metadata
field outside the enumerated set — `long_description_content_type`, the
literal `"text/markdown"`. -/
theorem content_type_field_outside_enumeration :
    literalKwargKeys.contains "long_description_content_type" = true
    ∧ claimedMetadataKeys.contains "long_description_content_type" = false :=
  ⟨rfl, rfl⟩

/-- Claim C5 (amended): the literal metadata fields are exactly the
enumerated ones plus the long-description content type; the description is
the stated literal string; and the script owns no logic that consumes them
(no function definitions, a single executable statement). -/
theorem literal_metadata_fields_enumerated :
    literalKwargKeys = ["name", "version", "author", "description",
      "long_description_content_type", "url", "python_requires",
      "install_requires"]
    ∧ List.lookup "description" setupCallKwargs
        = some (.strLit "Canonical naming and discovery system for AI agents")
    ∧ listDeepAny isFuncDefCtor setupPyStmts = false
    ∧ executableStmts = [PyStmt.exprStmt setupCallExpr] :=
  ⟨rfl, rfl, rfl, rfl⟩

/-- Claim C6: the declared distribution name, version and dependency
specifier of every run are syntactically valid per the packaging schema
(PEP 508 name, PEP 440 version, PEP 508 requirement). -/
theorem declared_metadata_syntactically_valid (env : BuildEnv) (args : SetupArgs)
    (h : runSetupScript env = .ok args) :
    validDistName args.name = true ∧ validVersion args.version = true
    ∧ args.install_requires.all validRequirement = true := by
  cases hr : env.readme with
  | none => simp [runSetupScript, openRead, hr] at h
  | some c =>
      simp [runSetupScript, openRead, hr] at h
      subst h
      refine ⟨?_, ?_, ?_⟩
      · show validDistName "agent-os" = true
        decide
      · show validVersion "0.1.0" = true
        decide
      · show List.all ["pyyaml>=6.0"] validRequirement = true
        decide

theorem declared_metadata_syntactically_valid_witness :
    validDistName (mkSetupArgs "# agent-os" ["agent_os"]).name = true
    ∧ validVersion (mkSetupArgs "# agent-os" ["agent_os"]).version = true
    ∧ (mkSetupArgs "# agent-os" ["agent_os"]).install_requires.all
        validRequirement = true :=
  declared_metadata_syntactically_valid envWithReadme
    (mkSetupArgs "# agent-os" ["agent_os"]) rfl

/-- Claim C7: execution is sequential and synchronous — the script has no
async constructs, no run's trace contains a concurrency event, and each run
calls `setup` at most once, exactly once when it succeeds. -/
theorem no_concurrency_single_setup_invocation :
    listDeepAny isAsyncCtor setupPyStmts = false
    ∧ (∀ env, (scriptTrace env).filter isConcurrencyEvent = [])
    ∧ (∀ env, ((scriptTrace env).filter isSetupEvent).length ≤ 1)
    ∧ (∀ env args, runSetupScript env = .ok args →
        ((scriptTrace env).filter isSetupEvent).length = 1) := by
  refine ⟨rfl, ?_, ?_, ?_⟩
  · intro env
    cases hr : env.readme <;>
      simp [scriptTrace, hr, isConcurrencyEvent, List.filter]
  · intro env
    cases hr : env.readme <;>
      simp [scriptTrace, hr, isSetupEvent, List.filter]
  · intro env args h
    cases hr : env.readme with
    | none => simp [runSetupScript, openRead, hr] at h
    | some c => simp [scriptTrace, hr, isSetupEvent, List.filter]

theorem no_concurrency_single_setup_invocation_witness :
    ((scriptTrace envWithReadme).filter isSetupEvent).length = 1 :=
  no_concurrency_single_setup_invocation.2.2.2 envWithReadme
    (mkSetupArgs "# agent-os" ["agent_os"]) rfl

/-- Claim C8: the README read is evaluated before `setup` is invoked — every
trace starts with the open of `README.md`, and when the README is missing
the error propagates, the trace stops at that open, and no `setup` call
(hence no package metadata) ever happens. -/
theorem readme_read_precedes_setup (env : BuildEnv) (h : env.readme = none) :
    runSetupScript env = .error .readFailure
    ∧ scriptTrace env = [.openCall "README.md"]
    ∧ (scriptTrace env).filter isSetupEvent = []
    ∧ (∀ e, (scriptTrace e).head? = some (.openCall "README.md")) := by
  refine ⟨?_, ?_, ?_, ?_⟩
  · simp [runSetupScript, openRead, h]
  · simp [scriptTrace, h]
  · simp [scriptTrace, h, isSetupEvent, List.filter]
  · intro e
    cases hr : e.readme <;> simp [scriptTrace, hr]

theorem readme_read_precedes_setup_witness :
    runSetupScript envNoReadme = .error .readFailure
    ∧ scriptTrace envNoReadme = [.openCall "README.md"] :=
  ⟨(readme_read_precedes_setup envNoReadme rfl).1,
   (readme_read_precedes_setup envNoReadme rfl).2.1⟩

/-- Claim C9: the run is deterministic in its inputs — two environments that
agree on the README contents and the package layout yield identical results,
whatever their environment variables, clock or randomness. -/
theorem setup_args_deterministic (e1 e2 : BuildEnv)
    (h1 : e1.readme = e2.readme) (h2 : e1.packageDirs = e2.packageDirs) :
    runSetupScript e1 = runSetupScript e2 := by
  unfold runSetupScript openRead
  rw [h1, h2]

theorem setup_args_deterministic_witness :
    runSetupScript envWithReadme = runSetupScript envWithReadmeAlt :=
  setup_args_deterministic envWithReadme envWithReadmeAlt rfl rfl

/-- Claim C10: the author and url fields are the unfilled template
placeholders `"Your Name"` and `"https://github.com/yourusername/agent-os"`,
and the declared minimum interpreter version is exactly 3.8. -/
theorem placeholder_metadata_values :
    List.lookup "author" setupCallKwargs = some (.strLit "Your Name")
    ∧ List.lookup "url" setupCallKwargs
        = some (.strLit "https://github.com/yourusername/agent-os")
    ∧ List.lookup "python_requires" setupCallKwargs = some (.strLit ">=3.8")
    ∧ parseSpecifierSet ">=3.8" = some [(CmpOp.geOp, [3, 8])] :=
  ⟨rfl, rfl, rfl, rfl⟩
